import Mathlib

/-!
The file drivers/clk/sunxi/clk-sun4i-tcon-ch1.c.

A shallow embedding of `sun4i_a10_tcon_ch1_setup`, the set-up routine of the
Allwinner A10 TCON channel-1 clock.  The routine talks to the rest of the kernel
only through calls (`kasprintf`, `of_io_request_and_map`, `kzalloc`,
`clk_register_composite`, `of_clk_add_provider`, `kfree`, `clk_unregister`, ...).
The embedding runs the routine against an `Env` that fixes the outcome of every
fallible call and returns the sequence of calls performed, in program order.
-/

namespace TconCh1

/-! ## Constants (lines 23-35) -/

def SUN4I_TCON_CH1_SCLK_NAME_LEN : Nat := 32

@[simp] def SUN4I_A10_TCON_CH1_SCLK2_PARENTS : Nat := 4

@[simp] def SUN4I_A10_TCON_CH1_SCLK2_GATE_BIT : Nat := 31
@[simp] def SUN4I_A10_TCON_CH1_SCLK2_MUX_MASK : Nat := 3
@[simp] def SUN4I_A10_TCON_CH1_SCLK2_MUX_SHIFT : Nat := 24
@[simp] def SUN4I_A10_TCON_CH1_SCLK2_DIV_WIDTH : Nat := 4
@[simp] def SUN4I_A10_TCON_CH1_SCLK2_DIV_SHIFT : Nat := 0

@[simp] def SUN4I_A10_TCON_CH1_SCLK1_GATE_BIT : Nat := 15
@[simp] def SUN4I_A10_TCON_CH1_SCLK1_DIV_WIDTH : Nat := 1
@[simp] def SUN4I_A10_TCON_CH1_SCLK1_DIV_SHIFT : Nat := 11

/-! ## Data model -/

/-- A spinlock object, identified by the symbol that defines it. -/
structure spinlock where
  sym : String
  deriving DecidableEq, Repr

/-- The lock of line 37: `static DEFINE_SPINLOCK(sun4i_a10_tcon_ch1_lock)`. -/
def sun4i_a10_tcon_ch1_lock : spinlock := ⟨"sun4i_a10_tcon_ch1_lock"⟩

/-- The members of `struct clk_mux` the routine relies on.  Pointer members are
    options, `none` being NULL; `reg` is the address of the register. -/
structure clk_mux where
  reg : Option Nat
  shift : Nat
  mask : Nat
  flags : Nat
  lock : Option spinlock
  deriving DecidableEq, Repr

/-- The members of `struct clk_gate` the routine relies on. -/
structure clk_gate where
  reg : Option Nat
  bit_idx : Nat
  flags : Nat
  lock : Option spinlock
  deriving DecidableEq, Repr

/-- The members of `struct clk_divider` the routine relies on. -/
structure clk_divider where
  reg : Option Nat
  shift : Nat
  width : Nat
  flags : Nat
  lock : Option spinlock
  deriving DecidableEq, Repr

/-- What `kzalloc(sizeof(struct clk_mux), ...)` hands out: all members zero. -/
@[simp] def clk_mux.kzalloc : clk_mux := ⟨none, 0, 0, 0, none⟩

/-- What `kzalloc(sizeof(struct clk_gate), ...)` hands out: all members zero. -/
@[simp] def clk_gate.kzalloc : clk_gate := ⟨none, 0, 0, none⟩

/-- What `kzalloc(sizeof(struct clk_divider), ...)` hands out: all members zero. -/
@[simp] def clk_divider.kzalloc : clk_divider := ⟨none, 0, 0, 0, none⟩

/-- The five heap objects of the routine, each named after the local variable
    that holds the pointer `kzalloc` returned (lines 44-46). -/
inductive Alloc
  | sclk2_mux
  | sclk2_gate
  | sclk2_div
  | sclk1_div
  | sclk1_gate
  deriving DecidableEq, Repr

/-- The two clock handles of the routine, each named after the local variable
    that holds the `struct clk *` returned by `clk_register_composite`
    (line 47). -/
inductive Clk
  | sclk2
  | sclk1
  deriving DecidableEq, Repr

/-- The contents of a heap object. -/
inductive Obj
  | mux (m : clk_mux)
  | gate (g : clk_gate)
  | div (d : clk_divider)
  deriving DecidableEq, Repr

/-- The arguments of one `clk_register_composite` call.  A `hw` pointer is
    represented by the contents of the object it points into, `none` being NULL
    (the matching `ops` pointer is NULL exactly when the `hw` pointer is). -/
structure composite_args where
  name : String
  parent_names : List (Option String)
  num_parents : Nat
  mux_hw : Option clk_mux
  rate_hw : Option clk_divider
  gate_hw : Option clk_gate
  flags : Nat
  deriving DecidableEq, Repr

/-- The device-tree node handed to the routine. `clocks` lists, per clock
    specifier of the node, the name of the clock it resolves to (`none` for a
    specifier that resolves to nothing). -/
structure device_node where
  name : String
  full_name : String
  properties : List (String × String)
  clocks : List (Option String)
  deriving DecidableEq, Repr

/-- Outcome of every fallible call the routine makes.  Each call site runs at
    most once, so one outcome per call site covers every behaviour of the
    callees. -/
structure Env where
  /-- Does `kasprintf` return a non-NULL string. -/
  kasprintf_ok : Bool
  /-- The address `of_io_request_and_map` returns, `none` for an `ERR_PTR`. -/
  of_io_request_and_map : Option Nat
  /-- Does the `kzalloc` for the given object return non-NULL. -/
  kzalloc_ok : Alloc → Bool
  /-- Does the `clk_register_composite` for the given handle return a clock
      (not an `ERR_PTR`). -/
  clk_register_composite_ok : Clk → Bool
  /-- Does `of_clk_add_provider` return 0. -/
  of_clk_add_provider_ok : Bool

/-- One call made by the routine, with its arguments and its outcome. -/
inductive Event
  | kasprintf (result : Option String)
  | of_io_request_and_map (index : Nat) (name : String) (result : Option Nat)
  | pr_err (msg : String)
  | kzalloc (p : Alloc) (ok : Bool)
  /-- The member stores that follow a successful `kzalloc`: `o` is the object
      after them. -/
  | assign (p : Alloc) (o : Obj)
  | clk_register_composite (c : Clk) (args : composite_args) (ok : Bool)
  | of_clk_add_provider (node : String) (get : String) (data : Clk) (ok : Bool)
  | WARN_ON
  | clk_unregister_composite (c : Clk)
  | clk_unregister (c : Clk)
  | kfree (p : Alloc)
  deriving DecidableEq, Repr

/-! ## Callees that only read the node -/

/-- The call `of_property_read_string(node, propname, &out)`: the string stored
    under `propname`, `none` when the call fails and leaves `out` untouched. -/
def of_property_read_string (node : device_node) (propname : String) : Option String :=
  node.properties.lookup propname

/-- Modelled from the spec: `of_clk_get_parent_name` (defined in
    drivers/clk/clk.c, not part of this file) is a gap-tolerant lookup in the
    declared parent list of the node: the name at `index`, NULL (`none`) when
    the node declares no parent there. -/
def of_clk_get_parent_name (node : device_node) (index : Nat) : Option String :=
  (node.clocks.get? index).join

/-! ## The clean-up labels (lines 137-150), each falling through to the next -/

@[simp] def free_sclk2_mux : List Event := [Event.kfree Alloc.sclk2_mux]
@[simp] def free_sclk2_gate : List Event := Event.kfree Alloc.sclk2_gate :: free_sclk2_mux
@[simp] def free_sclk2_div : List Event := Event.kfree Alloc.sclk2_div :: free_sclk2_gate
@[simp] def free_sclk2 : List Event := Event.clk_unregister Clk.sclk2 :: free_sclk2_div
@[simp] def free_sclk1_mux : List Event := Event.kfree Alloc.sclk1_div :: free_sclk2
@[simp] def free_sclk1_gate : List Event := Event.kfree Alloc.sclk1_gate :: free_sclk1_mux
@[simp] def free_sclk1 : List Event := Event.clk_unregister_composite Clk.sclk1 :: free_sclk1_gate

/-! ## The routine (lines 39-151) -/

/-- The function `sun4i_a10_tcon_ch1_setup(node)`: the calls it performs, in
    order, when the fallible ones behave as `env` says. -/
def sun4i_a10_tcon_ch1_setup (env : Env) (node : device_node) : List Event :=
  -- 42, 51: sclk1_name = node->name, overwritten when the property reads
  let sclk1_name := (of_property_read_string node "clock-output-names").getD node.name
  -- 54-56
  if ¬ env.kasprintf_ok then [Event.kasprintf none] else
  let sclk2_name := sclk1_name ++ "2"
  let t := [Event.kasprintf (some sclk2_name)]
  -- 58-62
  match env.of_io_request_and_map with
  | none =>
    t ++ [Event.of_io_request_and_map 0 node.full_name none,
          Event.pr_err (sclk2_name ++ ": Could not map the clock registers\n")]
  | some reg =>
  let t := t ++ [Event.of_io_request_and_map 0 node.full_name (some reg)]
  -- 64-65
  let sclk2_parents :=
    (List.range SUN4I_A10_TCON_CH1_SCLK2_PARENTS).map (of_clk_get_parent_name node)
  -- 67-69
  if ¬ env.kzalloc_ok Alloc.sclk2_mux then
    t ++ [Event.kzalloc Alloc.sclk2_mux false] else
  -- 71-74
  let sclk2_mux : clk_mux :=
    { clk_mux.kzalloc with
      reg := some reg
      shift := SUN4I_A10_TCON_CH1_SCLK2_MUX_SHIFT
      mask := SUN4I_A10_TCON_CH1_SCLK2_MUX_MASK
      lock := some sun4i_a10_tcon_ch1_lock }
  let t := t ++ [Event.kzalloc Alloc.sclk2_mux true,
                 Event.assign Alloc.sclk2_mux (Obj.mux sclk2_mux)]
  -- 76-78
  if ¬ env.kzalloc_ok Alloc.sclk2_gate then
    t ++ [Event.kzalloc Alloc.sclk2_gate false] ++ free_sclk2_mux else
  -- 80-82
  let sclk2_gate : clk_gate :=
    { clk_gate.kzalloc with
      reg := some reg
      bit_idx := SUN4I_A10_TCON_CH1_SCLK2_GATE_BIT
      lock := some sun4i_a10_tcon_ch1_lock }
  let t := t ++ [Event.kzalloc Alloc.sclk2_gate true,
                 Event.assign Alloc.sclk2_gate (Obj.gate sclk2_gate)]
  -- 84-86
  if ¬ env.kzalloc_ok Alloc.sclk2_div then
    t ++ [Event.kzalloc Alloc.sclk2_div false] ++ free_sclk2_gate else
  -- 88-91
  let sclk2_div : clk_divider :=
    { clk_divider.kzalloc with
      reg := some reg
      shift := SUN4I_A10_TCON_CH1_SCLK2_DIV_SHIFT
      width := SUN4I_A10_TCON_CH1_SCLK2_DIV_WIDTH
      lock := some sun4i_a10_tcon_ch1_lock }
  let t := t ++ [Event.kzalloc Alloc.sclk2_div true,
                 Event.assign Alloc.sclk2_div (Obj.div sclk2_div)]
  -- 93-98
  let sclk2_args : composite_args :=
    { name := sclk2_name
      parent_names := sclk2_parents
      num_parents := SUN4I_A10_TCON_CH1_SCLK2_PARENTS
      mux_hw := some sclk2_mux
      rate_hw := some sclk2_div
      gate_hw := some sclk2_gate
      flags := 0 }
  -- 99-102
  if ¬ env.clk_register_composite_ok Clk.sclk2 then
    t ++ [Event.clk_register_composite Clk.sclk2 sclk2_args false,
          Event.pr_err (sclk2_name ++ ": Couldn't register the clock\n")] ++
      free_sclk2_div else
  let t := t ++ [Event.clk_register_composite Clk.sclk2 sclk2_args true]
  -- 104-106
  if ¬ env.kzalloc_ok Alloc.sclk1_div then
    t ++ [Event.kzalloc Alloc.sclk1_div false] ++ free_sclk2 else
  -- 108-111
  let sclk1_div : clk_divider :=
    { clk_divider.kzalloc with
      reg := some reg
      shift := SUN4I_A10_TCON_CH1_SCLK1_DIV_SHIFT
      width := SUN4I_A10_TCON_CH1_SCLK1_DIV_WIDTH
      lock := some sun4i_a10_tcon_ch1_lock }
  let t := t ++ [Event.kzalloc Alloc.sclk1_div true,
                 Event.assign Alloc.sclk1_div (Obj.div sclk1_div)]
  -- 113-115
  if ¬ env.kzalloc_ok Alloc.sclk1_gate then
    t ++ [Event.kzalloc Alloc.sclk1_gate false] ++ free_sclk1_mux else
  -- 117-119
  let sclk1_gate : clk_gate :=
    { clk_gate.kzalloc with
      reg := some reg
      bit_idx := SUN4I_A10_TCON_CH1_SCLK1_GATE_BIT
      lock := some sun4i_a10_tcon_ch1_lock }
  let t := t ++ [Event.kzalloc Alloc.sclk1_gate true,
                 Event.assign Alloc.sclk1_gate (Obj.gate sclk1_gate)]
  -- 121-125
  let sclk1_args : composite_args :=
    { name := sclk1_name
      parent_names := [some sclk2_name]
      num_parents := 1
      mux_hw := none
      rate_hw := some sclk1_div
      gate_hw := some sclk1_gate
      flags := 0 }
  -- 126-129
  if ¬ env.clk_register_composite_ok Clk.sclk1 then
    t ++ [Event.clk_register_composite Clk.sclk1 sclk1_args false,
          Event.pr_err (sclk1_name ++ ": Couldn't register the clock\n")] ++
      free_sclk1_gate else
  let t := t ++ [Event.clk_register_composite Clk.sclk1 sclk1_args true]
  -- 131-133
  if ¬ env.of_clk_add_provider_ok then
    t ++ [Event.of_clk_add_provider node.full_name "of_clk_src_simple_get" Clk.sclk1 false,
          Event.WARN_ON] ++ free_sclk1 else
  -- 135
  t ++ [Event.of_clk_add_provider node.full_name "of_clk_src_simple_get" Clk.sclk1 true]

/-! ## Scenario inputs -/

/-- An environment in which every call succeeds and the register is mapped at
    `reg`. -/
def Env.allOk (reg : Nat) : Env :=
  { kasprintf_ok := true
    of_io_request_and_map := some reg
    kzalloc_ok := fun _ => true
    clk_register_composite_ok := fun _ => true
    of_clk_add_provider_ok := true }

/-- A node named "tcon0" with the two parents "pll3" and "pll7" and no
    `clock-output-names` property. -/
def tcon0 : device_node :=
  { name := "tcon0"
    full_name := "/clocks/tcon0"
    properties := []
    clocks := [some "pll3", some "pll7"] }

/-- An environment like `env` except that the `kzalloc` for `p` fails. -/
def Env.failAlloc (env : Env) (p : Alloc) : Env :=
  { env with kzalloc_ok := fun q => if q = p then false else env.kzalloc_ok q }

/-- An environment like `env` except that the registration of `c` fails. -/
def Env.failRegister (env : Env) (c : Clk) : Env :=
  { env with
    clk_register_composite_ok := fun d =>
      if d = c then false else env.clk_register_composite_ok d }

/-- An environment like `env` except that `of_clk_add_provider` fails. -/
def Env.failProvider (env : Env) : Env :=
  { env with of_clk_add_provider_ok := false }

/-! ## Observations on a sequence of calls -/

/-- A resource the routine acquires after the register is mapped: a heap object
    or a registered clock. -/
inductive Res
  | field (p : Alloc)
  | clock (c : Clk)
  deriving DecidableEq, Repr

/-- The order in which the routine acquires its resources. -/
def acquisition_order : List Res :=
  [Res.field Alloc.sclk2_mux, Res.field Alloc.sclk2_gate, Res.field Alloc.sclk2_div,
   Res.clock Clk.sclk2, Res.field Alloc.sclk1_div, Res.field Alloc.sclk1_gate,
   Res.clock Clk.sclk1]

/-- The resource a call acquires, when it is an acquisition that succeeds. -/
def Event.acquired : Event → Option Res
  | Event.kzalloc p true => some (Res.field p)
  | Event.clk_register_composite c _ true => some (Res.clock c)
  | _ => none

/-- The resource a call releases, when it is a release. -/
def Event.released : Event → Option Res
  | Event.kfree p => some (Res.field p)
  | Event.clk_unregister c => some (Res.clock c)
  | Event.clk_unregister_composite c => some (Res.clock c)
  | _ => none

/-- Is the call an attempt to acquire something (an allocation, a mapping, a
    registration or the publishing of the provider), successful or not. -/
def Event.isAttempt : Event → Bool
  | Event.kasprintf _ => true
  | Event.of_io_request_and_map _ _ _ => true
  | Event.kzalloc _ _ => true
  | Event.clk_register_composite _ _ _ => true
  | Event.of_clk_add_provider _ _ _ _ => true
  | _ => false

/-- Is the call a fallible call that failed. -/
def Event.isFailure : Event → Bool
  | Event.kasprintf none => true
  | Event.of_io_request_and_map _ _ none => true
  | Event.kzalloc _ false => true
  | Event.clk_register_composite _ _ false => true
  | Event.of_clk_add_provider _ _ _ false => true
  | _ => false

/-- The calls made before the first failing call. -/
def beforeFailure (t : List Event) : List Event :=
  t.takeWhile (fun e => !e.isFailure)

/-- The calls made after the first failing call. -/
def afterFailure (t : List Event) : List Event :=
  (t.dropWhile (fun e => !e.isFailure)).tail

/-- The resources acquired by a sequence of calls, in order. -/
def acquisitions (t : List Event) : List Res := t.filterMap Event.acquired

/-- The resources released by a sequence of calls, in order. -/
def releases (t : List Event) : List Res := t.filterMap Event.released

/-- The clocks a sequence of calls leaves registered: every successful
    `clk_register_composite` adds its clock, every unregistration removes it. -/
def live_clocks (t : List Event) : List Clk :=
  t.foldl (fun live e =>
    match e with
    | Event.clk_register_composite c _ true => live ++ [c]
    | Event.clk_unregister c => live.erase c
    | Event.clk_unregister_composite c => live.erase c
    | _ => live) []

/-- The heap objects a sequence of calls leaves allocated. -/
def live_fields (t : List Event) : List Alloc :=
  t.foldl (fun live e =>
    match e with
    | Event.kzalloc p true => live ++ [p]
    | Event.kfree p => live.erase p
    | _ => live) []

/-- The composite clocks a sequence of calls registers successfully, in order:
    the handle and the arguments of the call. -/
def registrations (t : List Event) : List (Clk × composite_args) :=
  t.filterMap (fun e =>
    match e with
    | Event.clk_register_composite c a true => some (c, a)
    | _ => none)

/-- Every `clk_register_composite` call of a sequence, successful or not. -/
def registration_calls (t : List Event) : List (Clk × composite_args) :=
  t.filterMap (fun e =>
    match e with
    | Event.clk_register_composite c a _ => some (c, a)
    | _ => none)

/-- The clocks a sequence of calls publishes successfully as a provider. -/
def providers (t : List Event) : List Clk :=
  t.filterMap (fun e =>
    match e with
    | Event.of_clk_add_provider _ _ c true => some c
    | _ => none)

/-- Every `of_clk_add_provider` call of a sequence, successful or not. -/
def provider_calls (t : List Event) : List Clk :=
  t.filterMap (fun e =>
    match e with
    | Event.of_clk_add_provider _ _ c _ => some c
    | _ => none)

/-! ## Register fields -/

/-- The register an object is built over. -/
def Obj.reg : Obj → Option Nat
  | Obj.mux m => m.reg
  | Obj.gate g => g.reg
  | Obj.div d => d.reg

/-- The lock an object is built over. -/
def Obj.lock : Obj → Option spinlock
  | Obj.mux m => m.lock
  | Obj.gate g => g.lock
  | Obj.div d => d.lock

/-- Modelled from the spec: the bit offset of the field an object describes
    (the accessors `clk_mux_ops`, `clk_divider_ops` and `clk_gate_ops` are not
    part of this file). A gate is a field of one bit at its bit index. -/
def Obj.shift : Obj → Nat
  | Obj.mux m => m.shift
  | Obj.gate g => g.bit_idx
  | Obj.div d => d.shift

/-- Modelled from the spec: the mask of the field value before shifting, which
    is `mask` for a mux, `(1 << width) - 1` for a divider and 1 for a gate. -/
def Obj.value_mask : Obj → Nat
  | Obj.mux m => m.mask
  | Obj.gate _ => 1
  | Obj.div d => (1 <<< d.width) - 1

/-- Modelled from the spec: the bits of the register a field occupies. -/
def Obj.field_mask (o : Obj) : Nat := o.value_mask <<< o.shift

/-- Modelled from the spec: `read()` of a field on a register holding `value`,
    which is `(value >> shift) & ((1 << width) - 1)`. -/
def Obj.read (o : Obj) (value : Nat) : Nat := (value >>> o.shift) &&& o.value_mask

/-- Modelled from the spec: `write(v)` of a field on a 32-bit register holding
    `value`. It fails (`none`) when `v` does not fit the field, and otherwise
    clears the bits of the field and ORs in the new value. -/
def Obj.write (o : Obj) (v : Nat) (value : Nat) : Option Nat :=
  if v > o.value_mask then none
  else some ((value &&& (0xFFFFFFFF ^^^ o.field_mask)) ||| (v <<< o.shift))

/-- The CompositeClock invariant of the specification: a mux, a divider or a
    gate is present, as many parent names are passed as announced, and that
    number is the selectable range `2 ^ width = mask + 1` of the mux when there
    is one and 1 otherwise. -/
def CompositeClock_invariant (a : composite_args) : Prop :=
  (a.mux_hw.isSome ∨ a.rate_hw.isSome ∨ a.gate_hw.isSome) ∧
  a.parent_names.length = a.num_parents ∧
  match a.mux_hw with
  | some m => ∃ width, m.mask + 1 = 2 ^ width ∧ a.num_parents = 2 ^ width
  | none => a.num_parents = 1

/-- Is the call a successful mapping of the register. -/
def Event.isMapped : Event → Bool
  | Event.of_io_request_and_map _ _ (some _) => true
  | _ => false

/-- Does the call construct a field: the allocation of one of the five objects
    or the stores that configure it. -/
def Event.isFieldConstruction : Event → Bool
  | Event.kzalloc _ _ => true
  | Event.assign _ _ => true
  | _ => false

/-- The fields of stage 1, in the order the routine allocates them. -/
def stage1_fields : List Res := [Res.field Alloc.sclk1_div, Res.field Alloc.sclk1_gate]

/-- The node of the build scenario with the output name "tcon0ch1" declared. -/
def tcon0_ch1 : device_node :=
  { tcon0 with properties := [("clock-output-names", "tcon0ch1")] }

/-- The 32-bit mask of each field, as the register layout gives it. -/
def layout_mask : Alloc → Nat
  | Alloc.sclk2_mux => 3 <<< 24
  | Alloc.sclk2_gate => 1 <<< 31
  | Alloc.sclk2_div => ((1 <<< 4) - 1) <<< 0
  | Alloc.sclk1_div => ((1 <<< 1) - 1) <<< 11
  | Alloc.sclk1_gate => 1 <<< 15

/-! ## Helper lemmas -/

theorem testBit_false_of_lt_of_le {x n i : Nat} (hx : x < 2 ^ n) (hi : n ≤ i) :
    x.testBit i = false := by
  apply Nat.testBit_lt_two_pow
  exact lt_of_lt_of_le hx (Nat.pow_le_pow_right (by decide) hi)

/-- The bits of a value that fits a field stay inside the field once shifted. -/
theorem shiftLeft_and_field (v s w : Nat) (hv : v < 2 ^ w) :
    (v <<< s) &&& ((2 ^ w - 1) <<< s) = v <<< s := by
  apply Nat.eq_of_testBit_eq
  intro i
  simp only [Nat.testBit_and, Nat.testBit_shiftLeft, Nat.testBit_two_pow_sub_one]
  by_cases h : i - s < w
  · simp only [h, decide_True, Bool.and_true]
    cases decide (i ≥ s) <;> cases v.testBit (i - s) <;> rfl
  · have := testBit_false_of_lt_of_le hv (Nat.le_of_not_lt h)
    simp [this]

/-- Clearing the bits `F` of a 32-bit word and ORing in bits inside `F` leaves
    the bits of a disjoint mask `G` as they were. -/
theorem rmw_and_other (r x F G : Nat) (hx : x &&& F = x) (hdis : F &&& G = 0)
    (hG : G < 2 ^ 32) :
    ((r &&& (0xFFFFFFFF ^^^ F)) ||| x) &&& G = r &&& G := by
  apply Nat.eq_of_testBit_eq
  intro i
  have hx' := congrArg (fun n => Nat.testBit n i) hx
  have hd' := congrArg (fun n => Nat.testBit n i) hdis
  have hU : (0xFFFFFFFF : Nat) = 2 ^ 32 - 1 := by decide
  simp only [Nat.testBit_and, Nat.zero_testBit] at hx' hd'
  simp only [Nat.testBit_and, Nat.testBit_or, Nat.testBit_xor, hU, Nat.testBit_two_pow_sub_one]
  by_cases hi : i < 32
  · cases hf : F.testBit i <;> cases hg : G.testBit i <;> cases hxx : x.testBit i <;>
      simp_all
  · have := testBit_false_of_lt_of_le hG (Nat.le_of_not_lt hi)
    simp [this]

theorem shiftRight_and_eq (r s m : Nat) : (r >>> s) &&& m = (r &&& (m <<< s)) >>> s := by
  apply Nat.eq_of_testBit_eq
  intro i
  simp [Nat.testBit_and, Nat.testBit_shiftRight, Nat.testBit_shiftLeft]

/-- A write to a field of width `w` does not change what a field with a
    disjoint mask reads. -/
theorem read_write_other (o o2 : Obj) (w : Nat) (hw : o.value_mask = 2 ^ w - 1)
    (hdis : o.field_mask &&& o2.field_mask = 0) (h32 : o2.field_mask < 2 ^ 32)
    (r v r2 : Nat) (h : o.write v r = some r2) : o2.read r2 = o2.read r := by
  unfold Obj.write at h
  split at h
  · exact absurd h (by simp)
  · rename_i hv
    have hv2 : v < 2 ^ w := by
      have hpos : 0 < 2 ^ w := Nat.two_pow_pos w
      omega
    have hx : (v <<< o.shift) &&& o.field_mask = v <<< o.shift := by
      unfold Obj.field_mask
      rw [hw]
      exact shiftLeft_and_field v o.shift w hv2
    have := rmw_and_other r (v <<< o.shift) o.field_mask o2.field_mask hx hdis h32
    injection h with h
    subst h
    unfold Obj.read
    rw [shiftRight_and_eq, shiftRight_and_eq r]
    unfold Obj.field_mask at this
    unfold Obj.field_mask
    rw [this]

/-- Every object the routine configures is one of the five below, built over
    the address the mapping returned. -/
theorem configured_cases (env : Env) (node : device_node) (p : Alloc) (o : Obj)
    (h : Event.assign p o ∈ sun4i_a10_tcon_ch1_setup env node) :
    ∃ reg, env.of_io_request_and_map = some reg ∧
      ((p = Alloc.sclk2_mux ∧ o = Obj.mux ⟨some reg, 24, 3, 0, some sun4i_a10_tcon_ch1_lock⟩) ∨
       (p = Alloc.sclk2_gate ∧ o = Obj.gate ⟨some reg, 31, 0, some sun4i_a10_tcon_ch1_lock⟩) ∨
       (p = Alloc.sclk2_div ∧ o = Obj.div ⟨some reg, 0, 4, 0, some sun4i_a10_tcon_ch1_lock⟩) ∨
       (p = Alloc.sclk1_div ∧ o = Obj.div ⟨some reg, 11, 1, 0, some sun4i_a10_tcon_ch1_lock⟩) ∨
       (p = Alloc.sclk1_gate ∧ o = Obj.gate ⟨some reg, 15, 0, some sun4i_a10_tcon_ch1_lock⟩)) := by
  cases hk : env.kasprintf_ok
  · simp [sun4i_a10_tcon_ch1_setup, hk] at h
  cases hm : env.of_io_request_and_map with
  | none => simp [sun4i_a10_tcon_ch1_setup, hk, hm] at h
  | some reg =>
    refine ⟨reg, rfl, ?_⟩
    cases h1 : env.kzalloc_ok Alloc.sclk2_mux
    · simp [sun4i_a10_tcon_ch1_setup, hk, hm, h1] at h
    cases h2 : env.kzalloc_ok Alloc.sclk2_gate
    · simp [sun4i_a10_tcon_ch1_setup, hk, hm, h1, h2] at h
      tauto
    cases h3 : env.kzalloc_ok Alloc.sclk2_div
    · simp [sun4i_a10_tcon_ch1_setup, hk, hm, h1, h2, h3] at h
      tauto
    cases h4 : env.clk_register_composite_ok Clk.sclk2
    · simp [sun4i_a10_tcon_ch1_setup, hk, hm, h1, h2, h3, h4] at h
      tauto
    cases h5 : env.kzalloc_ok Alloc.sclk1_div
    · simp [sun4i_a10_tcon_ch1_setup, hk, hm, h1, h2, h3, h4, h5] at h
      tauto
    cases h6 : env.kzalloc_ok Alloc.sclk1_gate
    · simp [sun4i_a10_tcon_ch1_setup, hk, hm, h1, h2, h3, h4, h5, h6] at h
      tauto
    cases h7 : env.clk_register_composite_ok Clk.sclk1
    · simp [sun4i_a10_tcon_ch1_setup, hk, hm, h1, h2, h3, h4, h5, h6, h7] at h
      tauto
    cases h8 : env.of_clk_add_provider_ok
    · simp [sun4i_a10_tcon_ch1_setup, hk, hm, h1, h2, h3, h4, h5, h6, h7, h8] at h
      tauto
    · simp [sun4i_a10_tcon_ch1_setup, hk, hm, h1, h2, h3, h4, h5, h6, h7, h8] at h
      tauto

/-- Every `clk_register_composite` call of the routine is one of the two
    below. -/
theorem registration_cases (env : Env) (node : device_node) (c : Clk) (a : composite_args)
    (h : (c, a) ∈ registration_calls (sun4i_a10_tcon_ch1_setup env node)) :
    ∃ reg, env.of_io_request_and_map = some reg ∧
      ((c = Clk.sclk2 ∧ a =
          { name := (node.properties.lookup "clock-output-names").getD node.name ++ "2"
            parent_names := [(node.clocks.get? 0).join, (node.clocks.get? 1).join,
                             (node.clocks.get? 2).join, (node.clocks.get? 3).join]
            num_parents := 4
            mux_hw := some ⟨some reg, 24, 3, 0, some sun4i_a10_tcon_ch1_lock⟩
            rate_hw := some ⟨some reg, 0, 4, 0, some sun4i_a10_tcon_ch1_lock⟩
            gate_hw := some ⟨some reg, 31, 0, some sun4i_a10_tcon_ch1_lock⟩
            flags := 0 }) ∨
       (c = Clk.sclk1 ∧ a =
          { name := (node.properties.lookup "clock-output-names").getD node.name
            parent_names :=
              [some ((node.properties.lookup "clock-output-names").getD node.name ++ "2")]
            num_parents := 1
            mux_hw := none
            rate_hw := some ⟨some reg, 11, 1, 0, some sun4i_a10_tcon_ch1_lock⟩
            gate_hw := some ⟨some reg, 15, 0, some sun4i_a10_tcon_ch1_lock⟩
            flags := 0 })) := by
  cases hk : env.kasprintf_ok
  · simp [sun4i_a10_tcon_ch1_setup, hk, registration_calls] at h
  cases hm : env.of_io_request_and_map with
  | none => simp [sun4i_a10_tcon_ch1_setup, hk, hm, registration_calls] at h
  | some reg =>
    refine ⟨reg, rfl, ?_⟩
    cases h1 : env.kzalloc_ok Alloc.sclk2_mux
    · simp [sun4i_a10_tcon_ch1_setup, hk, hm, h1, registration_calls] at h
    cases h2 : env.kzalloc_ok Alloc.sclk2_gate
    · simp [sun4i_a10_tcon_ch1_setup, hk, hm, h1, h2, registration_calls] at h
    cases h3 : env.kzalloc_ok Alloc.sclk2_div
    · simp [sun4i_a10_tcon_ch1_setup, hk, hm, h1, h2, h3, registration_calls] at h
    cases h4 : env.clk_register_composite_ok Clk.sclk2
    · simp [sun4i_a10_tcon_ch1_setup, hk, hm, h1, h2, h3, h4, registration_calls,
        of_property_read_string, of_clk_get_parent_name, List.range, List.range.loop] at h ⊢
      tauto
    cases h5 : env.kzalloc_ok Alloc.sclk1_div
    · simp [sun4i_a10_tcon_ch1_setup, hk, hm, h1, h2, h3, h4, h5, registration_calls,
        of_property_read_string, of_clk_get_parent_name, List.range, List.range.loop] at h ⊢
      tauto
    cases h6 : env.kzalloc_ok Alloc.sclk1_gate
    · simp [sun4i_a10_tcon_ch1_setup, hk, hm, h1, h2, h3, h4, h5, h6, registration_calls,
        of_property_read_string, of_clk_get_parent_name, List.range, List.range.loop] at h ⊢
      tauto
    cases h7 : env.clk_register_composite_ok Clk.sclk1
    · simp [sun4i_a10_tcon_ch1_setup, hk, hm, h1, h2, h3, h4, h5, h6, h7, registration_calls,
        of_property_read_string, of_clk_get_parent_name, List.range, List.range.loop] at h ⊢
      tauto
    cases h8 : env.of_clk_add_provider_ok
    · simp [sun4i_a10_tcon_ch1_setup, hk, hm, h1, h2, h3, h4, h5, h6, h7, h8, registration_calls,
        of_property_read_string, of_clk_get_parent_name, List.range, List.range.loop] at h ⊢
      tauto
    · simp [sun4i_a10_tcon_ch1_setup, hk, hm, h1, h2, h3, h4, h5, h6, h7, h8, registration_calls,
        of_property_read_string, of_clk_get_parent_name, List.range, List.range.loop] at h ⊢
      tauto

/-- No field is allocated or configured before the register is mapped. -/
theorem no_field_before_mapping (env : Env) (node : device_node) :
    ∀ e ∈ (sun4i_a10_tcon_ch1_setup env node).takeWhile (fun e => !e.isMapped),
      e.isFieldConstruction = false := by
  cases hk : env.kasprintf_ok
  · simp [sun4i_a10_tcon_ch1_setup, hk, Event.isMapped, Event.isFieldConstruction]
  cases hm : env.of_io_request_and_map with
  | none => simp [sun4i_a10_tcon_ch1_setup, hk, hm, Event.isMapped, Event.isFieldConstruction]
  | some reg =>
    cases h1 : env.kzalloc_ok Alloc.sclk2_mux
    · simp [sun4i_a10_tcon_ch1_setup, hk, hm, h1,
        Event.isMapped, Event.isFieldConstruction]
    cases h2 : env.kzalloc_ok Alloc.sclk2_gate
    · simp [sun4i_a10_tcon_ch1_setup, hk, hm, h1, h2,
        Event.isMapped, Event.isFieldConstruction]
    cases h3 : env.kzalloc_ok Alloc.sclk2_div
    · simp [sun4i_a10_tcon_ch1_setup, hk, hm, h1, h2, h3,
        Event.isMapped, Event.isFieldConstruction]
    cases h4 : env.clk_register_composite_ok Clk.sclk2
    · simp [sun4i_a10_tcon_ch1_setup, hk, hm, h1, h2, h3, h4,
        Event.isMapped, Event.isFieldConstruction]
    cases h5 : env.kzalloc_ok Alloc.sclk1_div
    · simp [sun4i_a10_tcon_ch1_setup, hk, hm, h1, h2, h3, h4, h5,
        Event.isMapped, Event.isFieldConstruction]
    cases h6 : env.kzalloc_ok Alloc.sclk1_gate
    · simp [sun4i_a10_tcon_ch1_setup, hk, hm, h1, h2, h3, h4, h5, h6,
        Event.isMapped, Event.isFieldConstruction]
    cases h7 : env.clk_register_composite_ok Clk.sclk1
    · simp [sun4i_a10_tcon_ch1_setup, hk, hm, h1, h2, h3, h4, h5, h6, h7,
        Event.isMapped, Event.isFieldConstruction]
    cases h8 : env.of_clk_add_provider_ok
    · simp [sun4i_a10_tcon_ch1_setup, hk, hm, h1, h2, h3, h4, h5, h6, h7, h8,
        Event.isMapped, Event.isFieldConstruction]
    · simp [sun4i_a10_tcon_ch1_setup, hk, hm, h1, h2, h3, h4, h5, h6, h7, h8,
        Event.isMapped, Event.isFieldConstruction]

/-- The masks of the register layout are pairwise disjoint. -/
theorem layout_mask_disjoint (p q : Alloc) (hne : p ≠ q) :
    layout_mask p &&& layout_mask q = 0 := by
  cases p <;> cases q <;> first | exact absurd rfl hne | decide

/-- The masks of the register layout fit a 32-bit register. -/
theorem layout_mask_lt (p : Alloc) : layout_mask p < 2 ^ 32 := by
  cases p <;> decide

/-- Every field the routine configures occupies the bits the layout gives it,
    and its value mask is that of a field of some width. -/
theorem configured_mask (env : Env) (node : device_node) (p : Alloc) (o : Obj)
    (h : Event.assign p o ∈ sun4i_a10_tcon_ch1_setup env node) :
    o.field_mask = layout_mask p ∧ ∃ w, o.value_mask = 2 ^ w - 1 := by
  obtain ⟨reg, -, hc⟩ := configured_cases env node p o h
  rcases hc with ⟨hp, ho⟩ | ⟨hp, ho⟩ | ⟨hp, ho⟩ | ⟨hp, ho⟩ | ⟨hp, ho⟩ <;> subst hp <;> subst ho
  · refine ⟨rfl, 2, ?_⟩
    show 3 = 2 ^ 2 - 1
    decide
  · refine ⟨rfl, 1, ?_⟩
    show 1 = 2 ^ 1 - 1
    decide
  · refine ⟨rfl, 4, ?_⟩
    show (1 <<< 4) - 1 = 2 ^ 4 - 1
    decide
  · refine ⟨rfl, 1, ?_⟩
    show (1 <<< 1) - 1 = 2 ^ 1 - 1
    decide
  · refine ⟨rfl, 1, ?_⟩
    show 1 = 2 ^ 1 - 1
    decide

/-! ## The build on success -/

/-- C1: when every step succeeds, exactly two composite clocks are registered:
    first the stage-2 clock, named `name1 ++ "2"`, with 4 parent slots (slot `i`
    is the `i`-th declared parent of the node, absent when there is none), a
    mux, a divider and a gate; then the stage-1 clock, named `name1`, with the
    single parent `name1 ++ "2"`, no mux, a divider and a gate. The one clock
    published as provider is the stage-1 clock. Here `name1` is the
    `clock-output-names` string of the node when present and its name
    otherwise. -/
theorem C1_success_registers_stage2_then_stage1 (env : Env) (node : device_node) (reg : Nat)
    (hk : env.kasprintf_ok = true) (hm : env.of_io_request_and_map = some reg)
    (ha : ∀ p, env.kzalloc_ok p = true) (hr : ∀ c, env.clk_register_composite_ok c = true)
    (hp : env.of_clk_add_provider_ok = true) :
    registration_calls (sun4i_a10_tcon_ch1_setup env node) =
      [(Clk.sclk2,
        { name := (node.properties.lookup "clock-output-names").getD node.name ++ "2"
          parent_names := [(node.clocks.get? 0).join, (node.clocks.get? 1).join,
                           (node.clocks.get? 2).join, (node.clocks.get? 3).join]
          num_parents := 4
          mux_hw := some ⟨some reg, 24, 3, 0, some sun4i_a10_tcon_ch1_lock⟩
          rate_hw := some ⟨some reg, 0, 4, 0, some sun4i_a10_tcon_ch1_lock⟩
          gate_hw := some ⟨some reg, 31, 0, some sun4i_a10_tcon_ch1_lock⟩
          flags := 0 }),
       (Clk.sclk1,
        { name := (node.properties.lookup "clock-output-names").getD node.name
          parent_names :=
            [some ((node.properties.lookup "clock-output-names").getD node.name ++ "2")]
          num_parents := 1
          mux_hw := none
          rate_hw := some ⟨some reg, 11, 1, 0, some sun4i_a10_tcon_ch1_lock⟩
          gate_hw := some ⟨some reg, 15, 0, some sun4i_a10_tcon_ch1_lock⟩
          flags := 0 })] ∧
    registrations (sun4i_a10_tcon_ch1_setup env node) =
      registration_calls (sun4i_a10_tcon_ch1_setup env node) ∧
    provider_calls (sun4i_a10_tcon_ch1_setup env node) = [Clk.sclk1] ∧
    providers (sun4i_a10_tcon_ch1_setup env node) = [Clk.sclk1] ∧
    live_clocks (sun4i_a10_tcon_ch1_setup env node) = [Clk.sclk2, Clk.sclk1] ∧
    releases (sun4i_a10_tcon_ch1_setup env node) = [] := by
  simp [sun4i_a10_tcon_ch1_setup, hk, hm, ha, hr, hp, registration_calls, registrations,
    provider_calls, providers, live_clocks, releases, Event.released, of_property_read_string,
    of_clk_get_parent_name, List.range, List.range.loop]

/-- C1 at the node "tcon0" without an output name, every call succeeding. -/
theorem C1_success_registers_stage2_then_stage1_witness :
    (Env.allOk 0x01c2012c).kasprintf_ok = true ∧
    (Env.allOk 0x01c2012c).of_io_request_and_map = some 0x01c2012c ∧
    (registration_calls (sun4i_a10_tcon_ch1_setup (Env.allOk 0x01c2012c) tcon0)).map
        (fun x => (x.1, x.2.name, x.2.parent_names)) =
      [(Clk.sclk2, "tcon02", [some "pll3", some "pll7", none, none]),
       (Clk.sclk1, "tcon0", [some "tcon02"])] ∧
    providers (sun4i_a10_tcon_ch1_setup (Env.allOk 0x01c2012c) tcon0) = [Clk.sclk1] :=
  ⟨rfl, rfl,
   by
    rw [(C1_success_registers_stage2_then_stage1 (Env.allOk 0x01c2012c) tcon0 0x01c2012c
      rfl rfl (fun _ => rfl) (fun _ => rfl) rfl).1]
    decide,
   (C1_success_registers_stage2_then_stage1 (Env.allOk 0x01c2012c) tcon0 0x01c2012c
      rfl rfl (fun _ => rfl) (fun _ => rfl) rfl).2.2.2.1⟩

/-! ## The register layout -/

/-- C2: on every path, each of the five fields the routine configures has the
    documented layout: stage-2 mux at shift 24 with mask 3 (width 2, bits 24 and
    25), stage-2 gate at bit 31, stage-2 divider at shift 0 with width 4 (bits 0
    to 3), stage-1 divider at shift 11 with width 1 (bit 11), stage-1 gate at
    bit 15. -/
theorem C2_field_layout (env : Env) (node : device_node) (p : Alloc) (o : Obj)
    (h : Event.assign p o ∈ sun4i_a10_tcon_ch1_setup env node) :
    (p = Alloc.sclk2_mux ∧ (∃ m, o = Obj.mux m ∧ m.shift = 24 ∧ m.mask = 3 ∧ m.mask = 2 ^ 2 - 1) ∧
      o.field_mask = 2 ^ 24 + 2 ^ 25) ∨
    (p = Alloc.sclk2_gate ∧ (∃ g, o = Obj.gate g ∧ g.bit_idx = 31) ∧ o.field_mask = 2 ^ 31) ∨
    (p = Alloc.sclk2_div ∧ (∃ d, o = Obj.div d ∧ d.shift = 0 ∧ d.width = 4) ∧
      o.field_mask = 2 ^ 0 + 2 ^ 1 + 2 ^ 2 + 2 ^ 3) ∨
    (p = Alloc.sclk1_div ∧ (∃ d, o = Obj.div d ∧ d.shift = 11 ∧ d.width = 1) ∧
      o.field_mask = 2 ^ 11) ∨
    (p = Alloc.sclk1_gate ∧ (∃ g, o = Obj.gate g ∧ g.bit_idx = 15) ∧ o.field_mask = 2 ^ 15) := by
  obtain ⟨reg, -, hc⟩ := configured_cases env node p o h
  rcases hc with ⟨hp, ho⟩ | ⟨hp, ho⟩ | ⟨hp, ho⟩ | ⟨hp, ho⟩ | ⟨hp, ho⟩ <;> subst hp <;> subst ho
  · refine Or.inl ⟨rfl, ⟨_, rfl, rfl, rfl, rfl⟩, ?_⟩
    show 3 <<< 24 = 2 ^ 24 + 2 ^ 25
    decide
  · refine Or.inr (Or.inl ⟨rfl, ⟨_, rfl, rfl⟩, ?_⟩)
    show 1 <<< 31 = 2 ^ 31
    decide
  · refine Or.inr (Or.inr (Or.inl ⟨rfl, ⟨_, rfl, rfl, rfl⟩, ?_⟩))
    show ((1 <<< 4) - 1) <<< 0 = 2 ^ 0 + 2 ^ 1 + 2 ^ 2 + 2 ^ 3
    decide
  · refine Or.inr (Or.inr (Or.inr (Or.inl ⟨rfl, ⟨_, rfl, rfl, rfl⟩, ?_⟩)))
    show ((1 <<< 1) - 1) <<< 11 = 2 ^ 11
    decide
  · refine Or.inr (Or.inr (Or.inr (Or.inr ⟨rfl, ⟨_, rfl, rfl⟩, ?_⟩)))
    show 1 <<< 15 = 2 ^ 15
    decide

/-- C2 at the stage-2 mux of a build that stops right after configuring it. -/
theorem C2_field_layout_witness :
    Event.assign Alloc.sclk2_mux (Obj.mux ⟨some 7, 24, 3, 0, some sun4i_a10_tcon_ch1_lock⟩) ∈
      sun4i_a10_tcon_ch1_setup ((Env.allOk 7).failAlloc Alloc.sclk2_gate) tcon0 ∧
    ((Alloc.sclk2_mux = Alloc.sclk2_mux ∧
        (∃ m, Obj.mux ⟨some 7, 24, 3, 0, some sun4i_a10_tcon_ch1_lock⟩ = Obj.mux m ∧
          m.shift = 24 ∧ m.mask = 3 ∧ m.mask = 2 ^ 2 - 1) ∧
        (Obj.mux ⟨some 7, 24, 3, 0, some sun4i_a10_tcon_ch1_lock⟩).field_mask = 2 ^ 24 + 2 ^ 25) ∨
     (Alloc.sclk2_mux = Alloc.sclk2_gate ∧
        (∃ g, Obj.mux ⟨some 7, 24, 3, 0, some sun4i_a10_tcon_ch1_lock⟩ = Obj.gate g ∧
          g.bit_idx = 31) ∧
        (Obj.mux ⟨some 7, 24, 3, 0, some sun4i_a10_tcon_ch1_lock⟩).field_mask = 2 ^ 31) ∨
     (Alloc.sclk2_mux = Alloc.sclk2_div ∧
        (∃ d, Obj.mux ⟨some 7, 24, 3, 0, some sun4i_a10_tcon_ch1_lock⟩ = Obj.div d ∧
          d.shift = 0 ∧ d.width = 4) ∧
        (Obj.mux ⟨some 7, 24, 3, 0, some sun4i_a10_tcon_ch1_lock⟩).field_mask =
          2 ^ 0 + 2 ^ 1 + 2 ^ 2 + 2 ^ 3) ∨
     (Alloc.sclk2_mux = Alloc.sclk1_div ∧
        (∃ d, Obj.mux ⟨some 7, 24, 3, 0, some sun4i_a10_tcon_ch1_lock⟩ = Obj.div d ∧
          d.shift = 11 ∧ d.width = 1) ∧
        (Obj.mux ⟨some 7, 24, 3, 0, some sun4i_a10_tcon_ch1_lock⟩).field_mask = 2 ^ 11) ∨
     (Alloc.sclk2_mux = Alloc.sclk1_gate ∧
        (∃ g, Obj.mux ⟨some 7, 24, 3, 0, some sun4i_a10_tcon_ch1_lock⟩ = Obj.gate g ∧
          g.bit_idx = 15) ∧
        (Obj.mux ⟨some 7, 24, 3, 0, some sun4i_a10_tcon_ch1_lock⟩).field_mask = 2 ^ 15)) :=
  ⟨by decide,
   C2_field_layout ((Env.allOk 7).failAlloc Alloc.sclk2_gate) tcon0 Alloc.sclk2_mux _ (by decide)⟩

/-! ## Rollback -/

/-- C3: when a step fails after the register is mapped, no acquisition is
    attempted after the failure, nothing is released before it, and the releases
    performed are exactly the reverse of the acquisitions that succeeded, which
    are an initial segment of mux2, gate2, divider2, stage-2 registration,
    divider1, gate1, stage-1 registration. Every acquired resource is released
    exactly once. When publishing fails the calls after the failure are the
    warning followed by: unregister stage 1, free gate1, free divider1,
    unregister stage 2, free divider2, free gate2, free mux2. -/
theorem C3_rollback_reverses_acquisitions (env : Env) (node : device_node) (reg : Nat)
    (hk : env.kasprintf_ok = true) (hm : env.of_io_request_and_map = some reg)
    (hfail : ¬ ((∀ p, env.kzalloc_ok p = true) ∧
                (∀ c, env.clk_register_composite_ok c = true) ∧
                env.of_clk_add_provider_ok = true)) :
    ((∃ e ∈ sun4i_a10_tcon_ch1_setup env node, e.isFailure = true) ∧
     (∀ e ∈ afterFailure (sun4i_a10_tcon_ch1_setup env node), e.isAttempt = false) ∧
     (∀ e ∈ beforeFailure (sun4i_a10_tcon_ch1_setup env node), e.released = none) ∧
     releases (afterFailure (sun4i_a10_tcon_ch1_setup env node)) =
       (acquisitions (beforeFailure (sun4i_a10_tcon_ch1_setup env node))).reverse ∧
     acquisitions (beforeFailure (sun4i_a10_tcon_ch1_setup env node)) =
       acquisition_order.take
         (acquisitions (beforeFailure (sun4i_a10_tcon_ch1_setup env node))).length ∧
     acquisitions (sun4i_a10_tcon_ch1_setup env node) =
       acquisitions (beforeFailure (sun4i_a10_tcon_ch1_setup env node)) ∧
     releases (sun4i_a10_tcon_ch1_setup env node) =
       releases (afterFailure (sun4i_a10_tcon_ch1_setup env node)) ∧
     (∀ r ∈ acquisitions (sun4i_a10_tcon_ch1_setup env node),
       (releases (sun4i_a10_tcon_ch1_setup env node)).count r = 1) ∧
     live_fields (sun4i_a10_tcon_ch1_setup env node) = [] ∧
     live_clocks (sun4i_a10_tcon_ch1_setup env node) = []) ∧
    ((∀ p, env.kzalloc_ok p = true) → (∀ c, env.clk_register_composite_ok c = true) →
      afterFailure (sun4i_a10_tcon_ch1_setup env node) =
        [Event.WARN_ON, Event.clk_unregister_composite Clk.sclk1,
         Event.kfree Alloc.sclk1_gate, Event.kfree Alloc.sclk1_div,
         Event.clk_unregister Clk.sclk2, Event.kfree Alloc.sclk2_div,
         Event.kfree Alloc.sclk2_gate, Event.kfree Alloc.sclk2_mux]) := by
  cases h1 : env.kzalloc_ok Alloc.sclk2_mux
  · refine ⟨?_, ?_⟩
    · simp [sun4i_a10_tcon_ch1_setup, hk, hm, h1,
        beforeFailure, afterFailure, acquisitions, releases, live_fields, live_clocks,
        acquisition_order, Event.isFailure, Event.isAttempt, Event.acquired, Event.released]
    · intro ha hr
      simp [ha, hr] at h1
  cases h2 : env.kzalloc_ok Alloc.sclk2_gate
  · refine ⟨?_, ?_⟩
    · simp [sun4i_a10_tcon_ch1_setup, hk, hm, h1, h2,
        beforeFailure, afterFailure, acquisitions, releases, live_fields, live_clocks,
        acquisition_order, Event.isFailure, Event.isAttempt, Event.acquired, Event.released]
    · intro ha hr
      simp [ha, hr] at h2
  cases h3 : env.kzalloc_ok Alloc.sclk2_div
  · refine ⟨?_, ?_⟩
    · simp [sun4i_a10_tcon_ch1_setup, hk, hm, h1, h2, h3,
        beforeFailure, afterFailure, acquisitions, releases, live_fields, live_clocks,
        acquisition_order, Event.isFailure, Event.isAttempt, Event.acquired, Event.released]
    · intro ha hr
      simp [ha, hr] at h3
  cases h4 : env.clk_register_composite_ok Clk.sclk2
  · refine ⟨?_, ?_⟩
    · simp [sun4i_a10_tcon_ch1_setup, hk, hm, h1, h2, h3, h4,
        beforeFailure, afterFailure, acquisitions, releases, live_fields, live_clocks,
        acquisition_order, Event.isFailure, Event.isAttempt, Event.acquired, Event.released]
    · intro ha hr
      simp [ha, hr] at h4
  cases h5 : env.kzalloc_ok Alloc.sclk1_div
  · refine ⟨?_, ?_⟩
    · simp [sun4i_a10_tcon_ch1_setup, hk, hm, h1, h2, h3, h4, h5,
        beforeFailure, afterFailure, acquisitions, releases, live_fields, live_clocks,
        acquisition_order, Event.isFailure, Event.isAttempt, Event.acquired, Event.released]
    · intro ha hr
      simp [ha, hr] at h5
  cases h6 : env.kzalloc_ok Alloc.sclk1_gate
  · refine ⟨?_, ?_⟩
    · simp [sun4i_a10_tcon_ch1_setup, hk, hm, h1, h2, h3, h4, h5, h6,
        beforeFailure, afterFailure, acquisitions, releases, live_fields, live_clocks,
        acquisition_order, Event.isFailure, Event.isAttempt, Event.acquired, Event.released]
    · intro ha hr
      simp [ha, hr] at h6
  cases h7 : env.clk_register_composite_ok Clk.sclk1
  · refine ⟨?_, ?_⟩
    · simp [sun4i_a10_tcon_ch1_setup, hk, hm, h1, h2, h3, h4, h5, h6, h7,
        beforeFailure, afterFailure, acquisitions, releases, live_fields, live_clocks,
        acquisition_order, Event.isFailure, Event.isAttempt, Event.acquired, Event.released]
    · intro ha hr
      simp [ha, hr] at h7
  cases h8 : env.of_clk_add_provider_ok
  · refine ⟨?_, ?_⟩
    · simp [sun4i_a10_tcon_ch1_setup, hk, hm, h1, h2, h3, h4, h5, h6, h7, h8,
        beforeFailure, afterFailure, acquisitions, releases, live_fields, live_clocks,
        acquisition_order, Event.isFailure, Event.isAttempt, Event.acquired, Event.released]
    · intro _ _
      simp [sun4i_a10_tcon_ch1_setup, hk, hm, h1, h2, h3, h4, h5, h6, h7, h8,
        afterFailure, Event.isFailure]
  · exact absurd
      ⟨fun p => by cases p <;> assumption, fun c => by cases c <;> assumption, h8⟩ hfail

/-- C3 at a build whose last step, publishing the provider, fails. -/
theorem C3_rollback_reverses_acquisitions_witness :
    (Env.allOk 7).failProvider.kasprintf_ok = true ∧
    (Env.allOk 7).failProvider.of_io_request_and_map = some 7 ∧
    releases (afterFailure (sun4i_a10_tcon_ch1_setup (Env.allOk 7).failProvider tcon0)) =
      (acquisitions (beforeFailure
        (sun4i_a10_tcon_ch1_setup (Env.allOk 7).failProvider tcon0))).reverse ∧
    afterFailure (sun4i_a10_tcon_ch1_setup (Env.allOk 7).failProvider tcon0) =
      [Event.WARN_ON, Event.clk_unregister_composite Clk.sclk1,
       Event.kfree Alloc.sclk1_gate, Event.kfree Alloc.sclk1_div,
       Event.clk_unregister Clk.sclk2, Event.kfree Alloc.sclk2_div,
       Event.kfree Alloc.sclk2_gate, Event.kfree Alloc.sclk2_mux] :=
  ⟨rfl, rfl,
   (C3_rollback_reverses_acquisitions (Env.allOk 7).failProvider tcon0 7 rfl rfl
      (fun h => Bool.false_ne_true h.2.2)).1.2.2.2.1,
   (C3_rollback_reverses_acquisitions (Env.allOk 7).failProvider tcon0 7 rfl rfl
      (fun h => Bool.false_ne_true h.2.2)).2 (fun _ => rfl) (fun _ => rfl)⟩

/-- C4: when the registration of the stage-1 clock fails, all earlier steps
    having succeeded, the routine logs the failure, frees the stage-1 gate and
    divider, unregisters the stage-2 clock and frees its divider, gate and mux.
    It never calls `of_clk_add_provider` and leaves no clock registered and no
    object allocated. -/
theorem C4_stage1_registration_failure (env : Env) (node : device_node) (reg : Nat)
    (hk : env.kasprintf_ok = true) (hm : env.of_io_request_and_map = some reg)
    (ha : ∀ p, env.kzalloc_ok p = true)
    (h2 : env.clk_register_composite_ok Clk.sclk2 = true)
    (h1 : env.clk_register_composite_ok Clk.sclk1 = false) :
    afterFailure (sun4i_a10_tcon_ch1_setup env node) =
      [Event.pr_err ((node.properties.lookup "clock-output-names").getD node.name ++
         ": Couldn't register the clock\n"),
       Event.kfree Alloc.sclk1_gate, Event.kfree Alloc.sclk1_div,
       Event.clk_unregister Clk.sclk2, Event.kfree Alloc.sclk2_div,
       Event.kfree Alloc.sclk2_gate, Event.kfree Alloc.sclk2_mux] ∧
    (registration_calls (sun4i_a10_tcon_ch1_setup env node)).map Prod.fst =
      [Clk.sclk2, Clk.sclk1] ∧
    (registrations (sun4i_a10_tcon_ch1_setup env node)).map Prod.fst = [Clk.sclk2] ∧
    provider_calls (sun4i_a10_tcon_ch1_setup env node) = [] ∧
    live_clocks (sun4i_a10_tcon_ch1_setup env node) = [] ∧
    live_fields (sun4i_a10_tcon_ch1_setup env node) = [] := by
  simp [sun4i_a10_tcon_ch1_setup, hk, hm, ha, h1, h2, afterFailure, registration_calls,
    registrations, provider_calls, live_clocks, live_fields, Event.isFailure,
    of_property_read_string]

/-- C4 at the node "tcon0" when only the stage-1 registration fails. -/
theorem C4_stage1_registration_failure_witness :
    ((Env.allOk 7).failRegister Clk.sclk1).clk_register_composite_ok Clk.sclk1 = false ∧
    provider_calls
      (sun4i_a10_tcon_ch1_setup ((Env.allOk 7).failRegister Clk.sclk1) tcon0) = [] ∧
    live_clocks (sun4i_a10_tcon_ch1_setup ((Env.allOk 7).failRegister Clk.sclk1) tcon0) = [] :=
  ⟨rfl,
   (C4_stage1_registration_failure ((Env.allOk 7).failRegister Clk.sclk1) tcon0 7 rfl rfl
      (fun _ => rfl) rfl rfl).2.2.2.1,
   (C4_stage1_registration_failure ((Env.allOk 7).failRegister Clk.sclk1) tcon0 7 rfl rfl
      (fun _ => rfl) rfl rfl).2.2.2.2.1⟩

/-- C5 as stated fails: when the allocation of the stage-1 divider fails, no
    stage-1 field has been allocated, yet the routine releases the stage-2 clock
    and its three fields, so the releases are not just the stage-1 fields
    allocated so far. -/
theorem C5_stage1_only_rollback_counterexample :
    ¬ (releases (afterFailure
          (sun4i_a10_tcon_ch1_setup ((Env.allOk 7).failAlloc Alloc.sclk1_div) tcon0)) =
        ((acquisitions (beforeFailure
          (sun4i_a10_tcon_ch1_setup ((Env.allOk 7).failAlloc Alloc.sclk1_div) tcon0))).filter
            (fun r => decide (r ∈ stage1_fields))).reverse) := by
  decide

/-- C5, amended: when the allocation of a stage-1 field fails (the divider, or
    the gate after the divider was allocated), the routine releases the stage-1
    fields allocated so far, in reverse order of allocation, and then the whole
    of stage 2: it unregisters the stage-2 clock and frees its divider, gate and
    mux. The stage-1 clock is never registered and no provider is published. -/
theorem C5_stage1_alloc_failure_rollback (env : Env) (node : device_node) (reg : Nat)
    (hk : env.kasprintf_ok = true) (hm : env.of_io_request_and_map = some reg)
    (hmux : env.kzalloc_ok Alloc.sclk2_mux = true)
    (hgate : env.kzalloc_ok Alloc.sclk2_gate = true)
    (hdiv : env.kzalloc_ok Alloc.sclk2_div = true)
    (h2 : env.clk_register_composite_ok Clk.sclk2 = true)
    (hfail : env.kzalloc_ok Alloc.sclk1_div = false ∨ env.kzalloc_ok Alloc.sclk1_gate = false) :
    releases (afterFailure (sun4i_a10_tcon_ch1_setup env node)) =
      ((acquisitions (beforeFailure (sun4i_a10_tcon_ch1_setup env node))).filter
          (fun r => decide (r ∈ stage1_fields))).reverse ++
        [Res.clock Clk.sclk2, Res.field Alloc.sclk2_div, Res.field Alloc.sclk2_gate,
         Res.field Alloc.sclk2_mux] ∧
    (acquisitions (beforeFailure (sun4i_a10_tcon_ch1_setup env node))).filter
        (fun r => decide (r ∈ stage1_fields)) =
      (if env.kzalloc_ok Alloc.sclk1_div = true then [Res.field Alloc.sclk1_div] else []) ∧
    (∀ e ∈ afterFailure (sun4i_a10_tcon_ch1_setup env node), e.isAttempt = false) ∧
    (registration_calls (sun4i_a10_tcon_ch1_setup env node)).map Prod.fst = [Clk.sclk2] ∧
    provider_calls (sun4i_a10_tcon_ch1_setup env node) = [] ∧
    live_clocks (sun4i_a10_tcon_ch1_setup env node) = [] ∧
    live_fields (sun4i_a10_tcon_ch1_setup env node) = [] := by
  cases h5 : env.kzalloc_ok Alloc.sclk1_div
  · simp [sun4i_a10_tcon_ch1_setup, hk, hm, hmux, hgate, hdiv, h2, h5, beforeFailure,
      afterFailure, acquisitions, releases, registration_calls, provider_calls, live_clocks,
      live_fields, stage1_fields, Event.isFailure, Event.isAttempt, Event.acquired,
      Event.released]
  · have h6 : env.kzalloc_ok Alloc.sclk1_gate = false := by
      rcases hfail with h | h
      · rw [h5] at h
        exact absurd h (by decide)
      · exact h
    simp [sun4i_a10_tcon_ch1_setup, hk, hm, hmux, hgate, hdiv, h2, h5, h6, beforeFailure,
      afterFailure, acquisitions, releases, registration_calls, provider_calls, live_clocks,
      live_fields, stage1_fields, Event.isFailure, Event.isAttempt, Event.acquired,
      Event.released]

/-- C5, amended, at the node "tcon0" when the stage-1 gate cannot be
    allocated. -/
theorem C5_stage1_alloc_failure_rollback_witness :
    ((Env.allOk 7).failAlloc Alloc.sclk1_gate).kzalloc_ok Alloc.sclk1_gate = false ∧
    releases (afterFailure
        (sun4i_a10_tcon_ch1_setup ((Env.allOk 7).failAlloc Alloc.sclk1_gate) tcon0)) =
      ((acquisitions (beforeFailure
          (sun4i_a10_tcon_ch1_setup ((Env.allOk 7).failAlloc Alloc.sclk1_gate) tcon0))).filter
            (fun r => decide (r ∈ stage1_fields))).reverse ++
        [Res.clock Clk.sclk2, Res.field Alloc.sclk2_div, Res.field Alloc.sclk2_gate,
         Res.field Alloc.sclk2_mux] :=
  ⟨rfl,
   (C5_stage1_alloc_failure_rollback ((Env.allOk 7).failAlloc Alloc.sclk1_gate) tcon0 7
      rfl rfl rfl rfl rfl rfl (Or.inr rfl)).1⟩

/-! ## Early failures -/

/-- C6: when the stage-2 name cannot be synthesised the routine returns without
    attempting to map the register; when the mapping fails it logs the failure
    and returns with no field allocated or configured, no clock registered and
    no provider published. -/
theorem C6_early_failures_abort (env : Env) (node : device_node) :
    (env.kasprintf_ok = false →
      sun4i_a10_tcon_ch1_setup env node = [Event.kasprintf none] ∧
      (∀ index name result,
        Event.of_io_request_and_map index name result ∉ sun4i_a10_tcon_ch1_setup env node)) ∧
    (env.kasprintf_ok = true → env.of_io_request_and_map = none →
      sun4i_a10_tcon_ch1_setup env node =
        [Event.kasprintf
           (some ((node.properties.lookup "clock-output-names").getD node.name ++ "2")),
         Event.of_io_request_and_map 0 node.full_name none,
         Event.pr_err ((node.properties.lookup "clock-output-names").getD node.name ++ "2" ++
           ": Could not map the clock registers\n")] ∧
      (∀ e ∈ sun4i_a10_tcon_ch1_setup env node, e.isFieldConstruction = false) ∧
      afterFailure (sun4i_a10_tcon_ch1_setup env node) =
        [Event.pr_err ((node.properties.lookup "clock-output-names").getD node.name ++ "2" ++
           ": Could not map the clock registers\n")] ∧
      registration_calls (sun4i_a10_tcon_ch1_setup env node) = [] ∧
      provider_calls (sun4i_a10_tcon_ch1_setup env node) = [] ∧
      live_fields (sun4i_a10_tcon_ch1_setup env node) = [] ∧
      live_clocks (sun4i_a10_tcon_ch1_setup env node) = []) := by
  constructor
  · intro hk
    simp [sun4i_a10_tcon_ch1_setup, hk]
  · intro hk hm
    simp [sun4i_a10_tcon_ch1_setup, hk, hm, afterFailure, registration_calls, provider_calls,
      live_fields, live_clocks, Event.isFailure, Event.isFieldConstruction,
      of_property_read_string]

/-- C6 at the node "tcon0": once with the name synthesis failing, once with
    the mapping failing. -/
theorem C6_early_failures_abort_witness :
    ({ Env.allOk 7 with kasprintf_ok := false } : Env).kasprintf_ok = false ∧
    sun4i_a10_tcon_ch1_setup { Env.allOk 7 with kasprintf_ok := false } tcon0 =
      [Event.kasprintf none] ∧
    ({ Env.allOk 7 with of_io_request_and_map := none } : Env).of_io_request_and_map = none ∧
    registration_calls
      (sun4i_a10_tcon_ch1_setup { Env.allOk 7 with of_io_request_and_map := none } tcon0) = [] ∧
    live_fields
      (sun4i_a10_tcon_ch1_setup { Env.allOk 7 with of_io_request_and_map := none } tcon0) = [] :=
  ⟨rfl,
   ((C6_early_failures_abort { Env.allOk 7 with kasprintf_ok := false } tcon0).1 rfl).1,
   rfl,
   ((C6_early_failures_abort { Env.allOk 7 with of_io_request_and_map := none } tcon0).2
      rfl rfl).2.2.2.1,
   ((C6_early_failures_abort { Env.allOk 7 with of_io_request_and_map := none } tcon0).2
      rfl rfl).2.2.2.2.2.1⟩

/-! ## The build scenario -/

/-- C7 as stated fails: on the node named "tcon0" with parents "pll3" and
    "pll7" and no output name declared, a successful build does not register
    clocks named "tcon0ch12" and "tcon0ch1" (it names them "tcon02" and
    "tcon0"). -/
theorem C7_build_scenario_counterexample :
    ¬ ((registrations (sun4i_a10_tcon_ch1_setup (Env.allOk 7) tcon0)).map
          (fun x => (x.1, x.2.name, x.2.parent_names)) =
        [(Clk.sclk2, "tcon0ch12", [some "pll3", some "pll7", none, none]),
         (Clk.sclk1, "tcon0ch1", [some "tcon0ch12"])]) := by
  decide

/-- C7, amended: on the node named "tcon0" with parents "pll3" and "pll7"
    whose `clock-output-names` is "tcon0ch1", a successful build registers a
    stage-2 clock named "tcon0ch12" with the parent slots "pll3", "pll7", absent,
    absent and a stage-1 clock named "tcon0ch1" with the single parent
    "tcon0ch12", and stage 1 is the only published clock. -/
theorem C7_build_scenario_with_output_name (env : Env) (reg : Nat)
    (hk : env.kasprintf_ok = true) (hm : env.of_io_request_and_map = some reg)
    (ha : ∀ p, env.kzalloc_ok p = true) (hr : ∀ c, env.clk_register_composite_ok c = true)
    (hp : env.of_clk_add_provider_ok = true) :
    (registrations (sun4i_a10_tcon_ch1_setup env tcon0_ch1)).map
        (fun x => (x.1, x.2.name, x.2.parent_names)) =
      [(Clk.sclk2, "tcon0ch12", [some "pll3", some "pll7", none, none]),
       (Clk.sclk1, "tcon0ch1", [some "tcon0ch12"])] ∧
    (registrations (sun4i_a10_tcon_ch1_setup env tcon0_ch1)).map (fun x => x.2.num_parents) =
      [4, 1] ∧
    provider_calls (sun4i_a10_tcon_ch1_setup env tcon0_ch1) = [Clk.sclk1] ∧
    providers (sun4i_a10_tcon_ch1_setup env tcon0_ch1) = [Clk.sclk1] := by
  have hname : ("tcon0ch1" : String) ++ "2" = "tcon0ch12" := by decide
  simp [sun4i_a10_tcon_ch1_setup, hk, hm, ha, hr, hp, registrations, provider_calls, providers,
    of_property_read_string, of_clk_get_parent_name, List.range, List.range.loop, tcon0_ch1,
    tcon0, List.lookup, hname]

/-- C7, amended, with every call succeeding. -/
theorem C7_build_scenario_with_output_name_witness :
    (Env.allOk 7).of_clk_add_provider_ok = true ∧
    (registrations (sun4i_a10_tcon_ch1_setup (Env.allOk 7) tcon0_ch1)).map
        (fun x => (x.1, x.2.name, x.2.parent_names)) =
      [(Clk.sclk2, "tcon0ch12", [some "pll3", some "pll7", none, none]),
       (Clk.sclk1, "tcon0ch1", [some "tcon0ch12"])] :=
  ⟨rfl,
   (C7_build_scenario_with_output_name (Env.allOk 7) 7 rfl rfl (fun _ => rfl) (fun _ => rfl)
      rfl).1⟩

/-! ## Invariants -/

/-- C8: every composite clock the routine registers satisfies the
    CompositeClock invariant: a mux, a divider or a gate is present, and the
    number of parent names passed is `2 ^ width = mask + 1` when there is a mux
    and 1 when there is none. Stage 2 is registered with 4 = 2 ^ 2 parents for
    its mux of mask 3, stage 1 with 1 parent and no mux. -/
theorem C8_registered_clocks_satisfy_invariant (env : Env) (node : device_node) (c : Clk)
    (a : composite_args)
    (h : (c, a) ∈ registration_calls (sun4i_a10_tcon_ch1_setup env node)) :
    CompositeClock_invariant a ∧
    (c = Clk.sclk2 →
      a.num_parents = 4 ∧ a.parent_names.length = 4 ∧
      ∃ m, a.mux_hw = some m ∧ m.mask = 3 ∧ m.mask + 1 = 2 ^ 2 ∧ a.num_parents = 2 ^ 2) ∧
    (c = Clk.sclk1 → a.num_parents = 1 ∧ a.parent_names.length = 1 ∧ a.mux_hw = none) := by
  obtain ⟨reg, -, hc⟩ := registration_cases env node c a h
  rcases hc with ⟨hc, ha⟩ | ⟨hc, ha⟩ <;> subst hc <;> subst ha
  · refine ⟨⟨Or.inl rfl, rfl, 2, rfl, rfl⟩, fun _ => ⟨rfl, rfl, _, rfl, rfl, rfl, rfl⟩, ?_⟩
    intro hc
    exact absurd hc (by decide)
  · refine ⟨⟨Or.inr (Or.inl rfl), rfl, rfl⟩, ?_, fun _ => ⟨rfl, rfl, rfl⟩⟩
    intro hc
    exact absurd hc (by decide)

/-- C8 at the stage-1 clock of a successful build on the node "tcon0". -/
theorem C8_registered_clocks_satisfy_invariant_witness :
    (Clk.sclk1,
      ({ name := "tcon0"
         parent_names := [some "tcon02"]
         num_parents := 1
         mux_hw := none
         rate_hw := some ⟨some 7, 11, 1, 0, some sun4i_a10_tcon_ch1_lock⟩
         gate_hw := some ⟨some 7, 15, 0, some sun4i_a10_tcon_ch1_lock⟩
         flags := 0 } : composite_args)) ∈
      registration_calls (sun4i_a10_tcon_ch1_setup (Env.allOk 7) tcon0) ∧
    CompositeClock_invariant
      { name := "tcon0"
        parent_names := [some "tcon02"]
        num_parents := 1
        mux_hw := none
        rate_hw := some ⟨some 7, 11, 1, 0, some sun4i_a10_tcon_ch1_lock⟩
        gate_hw := some ⟨some 7, 15, 0, some sun4i_a10_tcon_ch1_lock⟩
        flags := 0 } :=
  ⟨by decide,
   (C8_registered_clocks_satisfy_invariant (Env.allOk 7) tcon0 Clk.sclk1 _ (by decide)).1⟩

/-- C9: every field the routine constructs is built over the address the one
    mapping of the node returned and over the lock `sun4i_a10_tcon_ch1_lock`,
    and no field is allocated or configured before the register has been mapped
    successfully (none at all when the mapping fails). -/
theorem C9_fields_share_register_and_lock (env : Env) (node : device_node) :
    (∀ p o, Event.assign p o ∈ sun4i_a10_tcon_ch1_setup env node →
      ∃ reg, env.of_io_request_and_map = some reg ∧ o.reg = some reg ∧
        o.lock = some sun4i_a10_tcon_ch1_lock) ∧
    (∀ e ∈ (sun4i_a10_tcon_ch1_setup env node).takeWhile (fun e => !e.isMapped),
      e.isFieldConstruction = false) ∧
    (env.of_io_request_and_map = none →
      ∀ e ∈ sun4i_a10_tcon_ch1_setup env node, e.isFieldConstruction = false) := by
  refine ⟨?_, no_field_before_mapping env node, ?_⟩
  · intro p o h
    obtain ⟨reg, hreg, hc⟩ := configured_cases env node p o h
    refine ⟨reg, hreg, ?_⟩
    rcases hc with ⟨-, ho⟩ | ⟨-, ho⟩ | ⟨-, ho⟩ | ⟨-, ho⟩ | ⟨-, ho⟩ <;> subst ho <;>
      exact ⟨rfl, rfl⟩
  · intro hm
    cases hk : env.kasprintf_ok
    · simp [sun4i_a10_tcon_ch1_setup, hk, Event.isFieldConstruction]
    · simp [sun4i_a10_tcon_ch1_setup, hk, hm, Event.isFieldConstruction]

/-- C9 at the stage-1 gate of a successful build with the register mapped at
    address 7. -/
theorem C9_fields_share_register_and_lock_witness :
    Event.assign Alloc.sclk1_gate (Obj.gate ⟨some 7, 15, 0, some sun4i_a10_tcon_ch1_lock⟩) ∈
      sun4i_a10_tcon_ch1_setup (Env.allOk 7) tcon0 ∧
    ∃ reg, (Env.allOk 7).of_io_request_and_map = some reg ∧
      (Obj.gate ⟨some 7, 15, 0, some sun4i_a10_tcon_ch1_lock⟩).reg = some reg ∧
      (Obj.gate ⟨some 7, 15, 0, some sun4i_a10_tcon_ch1_lock⟩).lock =
        some sun4i_a10_tcon_ch1_lock :=
  ⟨by decide,
   (C9_fields_share_register_and_lock (Env.allOk 7) tcon0).1 Alloc.sclk1_gate _ (by decide)⟩

/-- C10: any two distinct fields the routine configures occupy disjoint bits of
    the 32-bit register: their masks, which are those of the register layout,
    have bitwise AND 0 and are below 2 ^ 32, so a write to one field does not
    change what the other field reads. -/
theorem C10_fields_pairwise_disjoint (env : Env) (node : device_node) (p q : Alloc) (o o2 : Obj)
    (hp : Event.assign p o ∈ sun4i_a10_tcon_ch1_setup env node)
    (hq : Event.assign q o2 ∈ sun4i_a10_tcon_ch1_setup env node) (hne : p ≠ q) :
    o.field_mask = layout_mask p ∧ o2.field_mask = layout_mask q ∧
    o.field_mask &&& o2.field_mask = 0 ∧
    o.field_mask < 2 ^ 32 ∧ o2.field_mask < 2 ^ 32 ∧
    ∀ r v r2, o.write v r = some r2 → o2.read r2 = o2.read r := by
  obtain ⟨hm1, w, hw⟩ := configured_mask env node p o hp
  obtain ⟨hm2, -⟩ := configured_mask env node q o2 hq
  have hdis : o.field_mask &&& o2.field_mask = 0 := by
    rw [hm1, hm2]
    exact layout_mask_disjoint p q hne
  have h1 : o.field_mask < 2 ^ 32 := by
    rw [hm1]
    exact layout_mask_lt p
  have h2 : o2.field_mask < 2 ^ 32 := by
    rw [hm2]
    exact layout_mask_lt q
  exact ⟨hm1, hm2, hdis, h1, h2, fun r v r2 h => read_write_other o o2 w hw hdis h2 r v r2 h⟩

/-- C10 at the stage-2 mux and the stage-2 gate of a successful build: writing
    the mux on a register with every bit set leaves the gate reading 1. -/
theorem C10_fields_pairwise_disjoint_witness :
    Alloc.sclk2_mux ≠ Alloc.sclk2_gate ∧
    (Obj.mux ⟨some 7, 24, 3, 0, some sun4i_a10_tcon_ch1_lock⟩).write 1 0xFFFFFFFF =
      some 0xFDFFFFFF ∧
    (Obj.gate ⟨some 7, 31, 0, some sun4i_a10_tcon_ch1_lock⟩).read 0xFDFFFFFF =
      (Obj.gate ⟨some 7, 31, 0, some sun4i_a10_tcon_ch1_lock⟩).read 0xFFFFFFFF :=
  ⟨by decide, by decide,
   (C10_fields_pairwise_disjoint (Env.allOk 7) tcon0 Alloc.sclk2_mux Alloc.sclk2_gate
      (Obj.mux ⟨some 7, 24, 3, 0, some sun4i_a10_tcon_ch1_lock⟩)
      (Obj.gate ⟨some 7, 31, 0, some sun4i_a10_tcon_ch1_lock⟩)
      (by decide) (by decide) (by decide)).2.2.2.2.2 0xFFFFFFFF 1 0xFDFFFFFF (by decide)⟩

end TconCh1
